import Mathlib

/-!
Verification of the agent-orchestration core of the `agentic-ai` repository.

The development shallowly embeds the Python sources under
`packages/core/src` into Lean:

* `llm/gateway.py` (`LLMGateway`): provider statuses, fallback order,
  `chat`, `chat_stream`, `health_check`;
* `agents/base.py` (`OllamaAgent._handle_sync_response`): the bounded
  tool-calling loop;
* `services/task_manager.py` (`TaskManager.cancel_task`);
* `orchestrator/supervisor.py` and `orchestrator/classifier.py`: the
  streaming routing decision (direct answer, explicit request,
  classifier delegation).

Python dicts keyed by strings become association lists preserving
insertion order; network calls become behaviour oracles passed in as
functions; exceptions become explicit error values; wall-clock time
spent inside a backend call becomes a `duration` field that the model
consults exactly where the source wraps the call in `asyncio.wait_for`.
-/

namespace AgenticAI

/-! ### Association-list helpers (Python `dict[str, ...]`) -/

/-- Lookup in an insertion-ordered map, Python `d.get(k)`. -/
def lookupKey {α : Type} : List (String × α) → String → Option α
  | [], _ => none
  | (k', v) :: rest, k => if k' = k then some v else lookupKey rest k

/-- Pointwise update of the value stored at key `k`, Python `d[k] = f(d[k])`
applied to an existing entry; identity when the key is absent.  Dict keys are
unique, so updating the first occurrence is exact. -/
def updateKey {α : Type} : List (String × α) → String → (α → α) → List (String × α)
  | [], _, _ => []
  | (k', v) :: rest, k, f =>
    if k' = k then (k', f v) :: rest else (k', v) :: updateKey rest k f

/-- Deletion, Python `del d[k]`. -/
def removeKey {α : Type} : List (String × α) → String → List (String × α)
  | [], _ => []
  | (k', v) :: rest, k =>
    if k' = k then removeKey rest k else (k', v) :: removeKey rest k

/-! ### Substring helpers (Python `needle in hay` on strings) -/

/-- Does `needle` occur at the head of `hay`? -/
def charsBegin : List Char → List Char → Bool
  | [], _ => true
  | _ :: _, [] => false
  | a :: as, b :: bs => a == b && charsBegin as bs

/-- Does `needle` occur anywhere inside `hay`? -/
def charsContain (needle : List Char) : List Char → Bool
  | [] => charsBegin needle []
  | c :: rest => charsBegin needle (c :: rest) || charsContain needle rest

/-- Python `needle in hay` for strings (substring containment). -/
def strContain (needle hay : String) : Bool :=
  charsContain needle.data hay.data

/-- Python `str.lower()` (ASCII-faithful model, over the character list). -/
def pyLower (s : String) : String := String.mk (s.data.map Char.toLower)

/-- Python `str.strip()`: whitespace trimming at both ends. -/
def pyStrip (s : String) : String :=
  String.mk
    (((s.data.dropWhile Char.isWhitespace).reverse.dropWhile
      Char.isWhitespace).reverse)

/-! ### Gateway data model (`llm/gateway.py`) -/

/-- `ProviderStatus` dataclass.  The unused `last_check_time` field (written
nowhere in the source) is omitted. -/
structure ProviderStatus where
  name : String
  healthy : Bool := true
  consecutive_failures : Nat := 0
  last_error : Option String := none
deriving Repr, DecidableEq

/-- `GatewayConfig` dataclass.  `health_check_interval_seconds` is never read
by the gateway code and is omitted; durations are modelled in whole seconds. -/
structure GatewayConfig where
  default_provider : String := "ollama"
  fallback_enabled : Bool := true
  max_failures_before_unhealthy : Nat := 3
  request_timeout_seconds : Nat := 120
deriving Repr, DecidableEq

/-- The part of `LLMResponse` the gateway logic observes. -/
structure LLMResponse where
  content : String
  model : String := ""
  input_tokens : Nat := 0
  output_tokens : Nat := 0
deriving Repr, DecidableEq

/-- Exceptions a provider call can raise: `ProviderError` (with its
`provider` and `retriable` attributes) or any other exception. -/
inductive PyExn where
  | providerError (msg : String) (provider : String) (retriable : Bool)
  | unexpected (msg : String)
deriving Repr, DecidableEq

/-- Python `str(e)` for the exceptions above. -/
def PyExn.msg : PyExn → String
  | .providerError m _ _ => m
  | .unexpected m => m

/-- Behaviour of one provider's `chat` coroutine for one request:
how long it runs (the source bounds this with `asyncio.wait_for`) and
what it returns or raises. -/
structure ChatBehavior where
  duration : Nat := 0
  outcome : Except PyExn LLMResponse

/-- Behaviour of one provider's `chat_stream` generator: the chunks it
yields, then either normal exhaustion (`none`) or a raised exception.
The source never wraps streaming in `asyncio.wait_for`, so `duration`
is recorded but never consulted by the gateway model. -/
structure StreamBehavior where
  duration : Nat := 0
  chunks : List String
  outcome : Option PyExn

/-- The gateway's own state: configuration, the keys of `_providers`
in insertion order, `_fallback_chain`, and `_provider_status`. -/
structure LLMGateway where
  config : GatewayConfig := {}
  providers : List String := []
  fallback_chain : List String := []
  provider_status : List (String × ProviderStatus) := []

/-! ### Gateway operations -/

/-- `LLMGateway._record_success`. -/
def record_success (st : List (String × ProviderStatus)) (n : String) :
    List (String × ProviderStatus) :=
  updateKey st n fun s => { s with consecutive_failures := 0, healthy := true }

/-- The state change `LLMGateway._record_failure` applies to the failing
provider's status entry. -/
def apply_failure (cfg : GatewayConfig) (err : String) (s : ProviderStatus) :
    ProviderStatus :=
  let failures := s.consecutive_failures + 1
  { s with
    consecutive_failures := failures
    last_error := some err
    healthy :=
      if cfg.max_failures_before_unhealthy ≤ failures then false else s.healthy }

/-- `LLMGateway._record_failure`. -/
def record_failure (cfg : GatewayConfig) (st : List (String × ProviderStatus))
    (n : String) (err : String) : List (String × ProviderStatus) :=
  updateKey st n (apply_failure cfg err)

/-- `LLMGateway._get_healthy_providers`. -/
def get_healthy_providers (gw : LLMGateway) : List String :=
  if gw.fallback_chain = [] then
    (gw.provider_status.filter fun p => p.2.healthy).map Prod.fst
  else
    gw.fallback_chain.filter fun n =>
      ((lookupKey gw.provider_status n).getD { name := n }).healthy

/-- The `providers_to_try` computation shared verbatim by `chat` and
`chat_stream`: an explicit hint suppresses fallback; otherwise the healthy
subchain, or every registered provider when none is healthy, or just the
default provider when fallback is disabled. -/
def providers_to_try (gw : LLMGateway) (hint : Option String) : List String :=
  match hint with
  | some p => [p]
  | none =>
    if gw.config.fallback_enabled then
      let healthy := get_healthy_providers gw
      if healthy = [] then gw.providers else healthy
    else
      [gw.config.default_provider]

/-- Message of the `ProviderError` the gateway builds on `TimeoutError`. -/
def timeout_message (cfg : GatewayConfig) : String :=
  "Request timed out after " ++ toString cfg.request_timeout_seconds ++ "s"

/-- Result of one `chat` invocation: the returned response or the raised
exception. -/
inductive ChatOutcome where
  | ok (resp : LLMResponse)
  | raised (e : PyExn)
deriving Repr, DecidableEq

/-- Full account of one `chat` invocation: final provider statuses, the
providers actually called (in call order), and the outcome. -/
structure ChatRun where
  status : List (String × ProviderStatus)
  attempted : List String
  outcome : ChatOutcome
deriving Repr, DecidableEq

/-- The provider loop of `LLMGateway.chat`.  Per candidate: skip when not
registered; the call runs under `asyncio.wait_for`, so an over-deadline
call raises `TimeoutError`, recorded as a retriable `ProviderError`;
success records success and returns; a `ProviderError` is recorded and
re-raised immediately when non-retriable; any other exception is recorded
and the loop continues.  Exhaustion raises the last recorded error, or a
non-retriable "No providers available" when nothing was attempted. -/
def chat_attempts (cfg : GatewayConfig) (registered : List String)
    (behave : String → ChatBehavior) :
    List String → List (String × ProviderStatus) → Option PyExn → ChatRun
  | [], st, lastError =>
    ⟨st, [],
      .raised (lastError.getD (.providerError "No providers available" "gateway" false))⟩
  | n :: rest, st, lastError =>
    if n ∈ registered then
      let b := behave n
      if cfg.request_timeout_seconds < b.duration then
        let st' := record_failure cfg st n (timeout_message cfg)
        let r := chat_attempts cfg registered behave rest st'
          (some (.providerError (timeout_message cfg) n true))
        ⟨r.status, n :: r.attempted, r.outcome⟩
      else
        match b.outcome with
        | .ok resp => ⟨record_success st n, [n], .ok resp⟩
        | .error e =>
          let st' := record_failure cfg st n e.msg
          match e with
          | .providerError m p true =>
            let r := chat_attempts cfg registered behave rest st'
              (some (.providerError m p true))
            ⟨r.status, n :: r.attempted, r.outcome⟩
          | .providerError m p false =>
            ⟨st', [n], .raised (.providerError m p false)⟩
          | .unexpected m =>
            let r := chat_attempts cfg registered behave rest st'
              (some (.unexpected m))
            ⟨r.status, n :: r.attempted, r.outcome⟩
    else
      chat_attempts cfg registered behave rest st lastError

/-- `LLMGateway.chat`. -/
def chat (gw : LLMGateway) (behave : String → ChatBehavior)
    (hint : Option String) : ChatRun :=
  chat_attempts gw.config gw.providers behave (providers_to_try gw hint)
    gw.provider_status none

/-- The gateway state after a `chat` call (only `_provider_status` mutates). -/
def gateway_after_chat (gw : LLMGateway) (behave : String → ChatBehavior)
    (hint : Option String) : LLMGateway :=
  { gw with provider_status := (chat gw behave hint).status }

/-- Terminal state of one `chat_stream` invocation as its caller sees it. -/
inductive StreamResult where
  | done
  | raised (e : PyExn)
deriving Repr, DecidableEq

/-- Full account of one `chat_stream` invocation: every chunk yielded to the
caller in order, final statuses, and how the generator ended. -/
structure StreamRun where
  emitted : List String
  status : List (String × ProviderStatus)
  result : StreamResult
deriving Repr, DecidableEq

/-- The provider loop of `LLMGateway.chat_stream`.  The `try` block spans the
whole `async for`, so chunks yielded before a failure have already reached
the caller; a retriable `ProviderError` or unexpected exception is recorded
and the loop continues with the next candidate, a non-retriable
`ProviderError` is recorded and re-raised.  No `asyncio.wait_for` appears in
the source, so the behaviour's `duration` is never consulted. -/
def stream_attempts (cfg : GatewayConfig) (registered : List String)
    (behave : String → StreamBehavior) :
    List String → List (String × ProviderStatus) → Option PyExn → StreamRun
  | [], st, lastError =>
    ⟨[], st,
      .raised (lastError.getD
        (.providerError "No providers available for streaming" "gateway" false))⟩
  | n :: rest, st, lastError =>
    if n ∈ registered then
      let b := behave n
      match b.outcome with
      | none => ⟨b.chunks, record_success st n, .done⟩
      | some e =>
        let st' := record_failure cfg st n e.msg
        match e with
        | .providerError m p false =>
          ⟨b.chunks, st', .raised (.providerError m p false)⟩
        | .providerError m p true =>
          let r := stream_attempts cfg registered behave rest st'
            (some (.providerError m p true))
          ⟨b.chunks ++ r.emitted, r.status, r.result⟩
        | .unexpected m =>
          let r := stream_attempts cfg registered behave rest st'
            (some (.unexpected m))
          ⟨b.chunks ++ r.emitted, r.status, r.result⟩
    else
      stream_attempts cfg registered behave rest st lastError

/-- `LLMGateway.chat_stream`. -/
def chat_stream (gw : LLMGateway) (behave : String → StreamBehavior)
    (hint : Option String) : StreamRun :=
  stream_attempts gw.config gw.providers behave (providers_to_try gw hint)
    gw.provider_status none

/-- The per-provider loop of `LLMGateway.health_check`.  A probe that
returns writes its boolean straight into `status.healthy` and clears the
failure counter only on success; a probe that raises records `False` in the
results without touching the status entry. -/
def health_check_go (registered : List String)
    (probe : String → Except String Bool) :
    List String → List (String × ProviderStatus) →
    List (String × ProviderStatus) × List (String × Bool)
  | [], st => (st, [])
  | n :: rest, st =>
    if n ∈ registered then
      match probe n with
      | .ok h =>
        let st' := updateKey st n fun s =>
          { s with
            healthy := h
            consecutive_failures := if h then 0 else s.consecutive_failures }
        let r := health_check_go registered probe rest st'
        (r.1, (n, h) :: r.2)
      | .error _ =>
        let r := health_check_go registered probe rest st
        (r.1, (n, false) :: r.2)
    else
      let r := health_check_go registered probe rest st
      (r.1, (n, false) :: r.2)

/-- `LLMGateway.health_check`. -/
def health_check (gw : LLMGateway) (probe : String → Except String Bool)
    (hint : Option String) :
    List (String × ProviderStatus) × List (String × Bool) :=
  health_check_go gw.providers probe
    (match hint with | some p => [p] | none => gw.providers)
    gw.provider_status

/-! ### Attempt classification predicates for `chat` -/

/-- The attempt fails with what the spec calls a retriable error: the
deadline expires, or the provider raises a `ProviderError` with
`retriable=True`. -/
def fails_retriably (cfg : GatewayConfig) (b : ChatBehavior) : Prop :=
  cfg.request_timeout_seconds < b.duration ∨
  ∃ m p, b.outcome = Except.error (PyExn.providerError m p true)

/-- The attempt makes the `chat` loop record a failure and move on to the
next candidate: deadline expiry, retriable `ProviderError`, or an
unexpected exception. -/
def attempt_continues (cfg : GatewayConfig) (b : ChatBehavior) : Prop :=
  cfg.request_timeout_seconds < b.duration ∨
  (∃ m p, b.outcome = Except.error (PyExn.providerError m p true)) ∨
  (∃ m, b.outcome = Except.error (PyExn.unexpected m))

/-- The attempt does not succeed (any exception path, retriable or not). -/
def attempt_fails (cfg : GatewayConfig) (b : ChatBehavior) : Prop :=
  cfg.request_timeout_seconds < b.duration ∨ ∃ e, b.outcome = Except.error e

/-- The string `_record_failure` stores for a failing attempt. -/
def attempt_fail_msg (cfg : GatewayConfig) (b : ChatBehavior) : String :=
  if cfg.request_timeout_seconds < b.duration then timeout_message cfg
  else
    match b.outcome with
    | .error e => e.msg
    | .ok _ => ""

/-- The exception a failing attempt leaves in `last_error` (the gateway
wraps a deadline expiry for provider `n` in a retriable `ProviderError`). -/
def attempt_error (cfg : GatewayConfig) (n : String) (b : ChatBehavior) : PyExn :=
  if cfg.request_timeout_seconds < b.duration then
    .providerError (timeout_message cfg) n true
  else
    match b.outcome with
    | .error e => e
    | .ok _ => .unexpected ""

/-! ### Bounded tool-calling loop (`agents/base.py`) -/

/-- `MAX_TOOL_ITERATIONS` module constant. -/
def MAX_TOOL_ITERATIONS : Nat := 5

/-- `ToolCall` as parsed by `OllamaAgent._parse_tool_calls`. -/
structure ToolCall where
  tool_name : String
  arguments : List (String × String) := []
  call_id : String := ""
deriving Repr, DecidableEq

/-- One backend chat response as `_handle_sync_response` observes it. -/
structure OllamaResponse where
  content : String
  tool_calls : List ToolCall := []
deriving Repr, DecidableEq

/-- A conversation message appended by the loop (role and rendered content;
the claims never inspect the tool-call payload carried alongside). -/
structure ChatMsg where
  role : String
  content : String
deriving Repr, DecidableEq

/-- Result of `_handle_sync_response`: `calls` counts every
`self._client.chat` invocation the handler made. -/
structure SyncOut where
  calls : Nat
  messages : List ChatMsg
  content : String
deriving Repr, DecidableEq

/-- The `while self._has_tool_calls(response) and iteration < MAX_TOOL_ITERATIONS`
loop, with `fuel = MAX_TOOL_ITERATIONS - iteration`.  `respond k` is the
response of the `(k+1)`-th backend chat call; `execute_tool` is
`ToolExecutor.execute_tool` followed by `result.to_message()` (tool errors are
captured inside that string, never raised). -/
def sync_loop (respond : Nat → OllamaResponse) (execute_tool : ToolCall → String) :
    Nat → Nat → List ChatMsg → OllamaResponse → SyncOut
  | 0, calls, messages, response => ⟨calls, messages, response.content⟩
  | fuel + 1, calls, messages, response =>
    if response.tool_calls = [] then ⟨calls, messages, response.content⟩
    else
      let messages' := messages ++ [⟨"assistant", response.content⟩] ++
        response.tool_calls.map fun tc => ⟨"tool", execute_tool tc⟩
      sync_loop respond execute_tool fuel (calls + 1) messages' (respond calls)

/-- `OllamaAgent._handle_sync_response`: one initial backend call, then the
bounded tool loop. -/
def handle_sync_response (respond : Nat → OllamaResponse)
    (execute_tool : ToolCall → String) (messages : List ChatMsg) : SyncOut :=
  sync_loop respond execute_tool MAX_TOOL_ITERATIONS 1 messages (respond 0)

/-! ### Cancellation registry (`services/task_manager.py`) -/

/-- An `asyncio.Task` as `cancel_task` observes it within one synchronous
frame: `done` is whether the task has finished; `Task.cancel()` only
requests cancellation (counted here), it does not make `done()` true until
the event loop next runs the task. -/
structure PyTask where
  done : Bool
  cancel_requests : Nat := 0
deriving Repr, DecidableEq

/-- `TaskManager` state: `_tasks`, session id to task. -/
structure TaskManager where
  tasks : List (String × PyTask)
deriving Repr, DecidableEq

/-- `TaskManager._cleanup_task`. -/
def cleanup_task (tm : TaskManager) (sid : String) : TaskManager :=
  ⟨removeKey tm.tasks sid⟩

/-- `TaskManager.cancel_task`: returns the boolean result and the registry
state after the call. -/
def cancel_task (tm : TaskManager) (sid : String) : Bool × TaskManager :=
  match lookupKey tm.tasks sid with
  | none => (false, tm)
  | some t =>
    if t.done then (false, cleanup_task tm sid)
    else
      (true,
        ⟨updateKey tm.tasks sid fun u =>
          { u with cancel_requests := u.cancel_requests + 1 }⟩)

/-- `TaskManager.is_active`. -/
def is_active (tm : TaskManager) (sid : String) : Bool :=
  match lookupKey tm.tasks sid with
  | some t => !t.done
  | none => false

/-! ### Routing (`orchestrator/supervisor.py`, `orchestrator/classifier.py`) -/

/-- What the router needs of an agent: its display name (and description,
used only to build prompts). -/
structure AgentRef where
  name : String
  description : String := ""
deriving Repr, DecidableEq

/-- `supervisor_patterns` list from `process_query_streaming`. -/
def supervisor_patterns : List String :=
  ["hello", "hi", "hey", "good morning", "good afternoon", "good evening",
   "how are you", "what can you do", "help", "what agents", "list agents",
   "available agents", "who are you", "what is this", "thanks", "thank you"]

/-- Selected agent plus the fixed heuristic confidence (in tenths) of
`OllamaSupervisorClassifier.process_request`. -/
structure ClassifierOutcome where
  selected : AgentRef
  confidence_tenths : Nat
deriving Repr, DecidableEq

/-- `OllamaSupervisorClassifier.process_request` over the agent map it was
constructed with.  `reply` is the routing LLM call: `.ok text` is the model's
answer, `.error` any of the caught exceptions.  `none` models the
`IndexError` of `self.agents[self.agent_list[0]]` on an empty map, which no
`except` clause catches. -/
def classifier_select (agents : List (String × AgentRef))
    (reply : Except String String) : Option ClassifierOutcome :=
  match reply with
  | .ok text =>
    match agents.find? (fun p => strContain (pyLower p.2.name) (pyLower text)) with
    | some p => some ⟨p.2, 9⟩
    | none =>
      match lookupKey agents "systemarchitect" with
      | some a => some ⟨a, 6⟩
      | none =>
        match agents.head? with
        | some p => some ⟨p.2, 4⟩
        | none => none
  | .error _ =>
    match lookupKey agents "systemarchitect" with
    | some a => some ⟨a, 3⟩
    | none =>
      match agents.head? with
      | some p => some ⟨p.2, 2⟩
      | none => none

/-- The explicit-agent keyword table of `process_query_streaming` step 2:
the first matching keyword group is looked up in the enabled map; a miss
(agent disabled) falls through to the classifier. -/
def explicit_agent_for (query_lower : String)
    (enabled : List (String × AgentRef)) : Option AgentRef :=
  if ["kubernetes expert", "kubernetesexpert", "k8s expert"].any
      (fun w => strContain w query_lower) then
    lookupKey enabled "kubernetesexpert"
  else if ["terraform expert", "terraformexpert", "iac expert"].any
      (fun w => strContain w query_lower) then
    lookupKey enabled "terraformexpert"
  else if ["python expert", "pythonexpert"].any
      (fun w => strContain w query_lower) then
    lookupKey enabled "pythonexpert"
  else if ["frontend expert", "frontendexpert", "react expert"].any
      (fun w => strContain w query_lower) then
    lookupKey enabled "frontendexpert"
  else if ["architect", "systemarchitect", "system architect"].any
      (fun w => strContain w query_lower) then
    lookupKey enabled "systemarchitect"
  else
    none

/-- How `SupervisorOrchestrator.process_query_streaming` decides which agent
produces the response (the terminal branch taken before any content event). -/
inductive Selection where
  | errorNoAgents
  | supervisorDirect (a : AgentRef)
  | explicitAgent (a : AgentRef)
  | classified (a : AgentRef)
  | errorNoCollaborators
  | errorNoSelection
deriving Repr, DecidableEq

/-- The routing decision of `process_query_streaming`.  `sup` is
`self.supervisor_agent`, captured from the full agent map at construction
time; `enabled` is `agents_lower` after the per-session enablement filter;
`reply` is the classifier's LLM call.  Mirrors the source order: empty-set
error, no-supervisor classifier fallback, supervisor direct-answer
patterns, explicit agent request, classifier delegation with its
`systemarchitect` backstop. -/
def select_streaming (sup : Option AgentRef) (enabled : List (String × AgentRef))
    (query : String) (reply : Except String String) : Selection :=
  if enabled = [] then .errorNoAgents
  else
    let enabled_collaborators := enabled.filter fun p => p.1 != "supervisor"
    match sup with
    | none =>
      match classifier_select enabled_collaborators reply with
      | some o => .classified o.selected
      | none => .errorNoSelection
    | some s =>
      let query_lower := pyStrip (pyLower query)
      if supervisor_patterns.any (fun pat => strContain pat query_lower) then
        .supervisorDirect s
      else
        match explicit_agent_for query_lower enabled with
        | some a => .explicitAgent a
        | none =>
          if enabled_collaborators = [] then .errorNoCollaborators
          else
            match classifier_select enabled_collaborators reply with
            | some o => .classified o.selected
            | none =>
              match lookupKey enabled_collaborators "systemarchitect" with
              | some a => .classified a
              | none => .errorNoSelection

/-- The agent name carried by the `{"type": "metadata"}` event, when the
invocation reaches one. -/
def metadata_agent : Selection → Option String
  | .supervisorDirect a => some a.name
  | .explicitAgent a => some a.name
  | .classified a => some a.name
  | _ => none

/-- The agent chosen to produce the response, when one was chosen. -/
def selected_agent_of : Selection → Option AgentRef
  | .supervisorDirect a => some a
  | .explicitAgent a => some a
  | .classified a => some a
  | _ => none

/-- `AgentStateManager.get_enabled_agents` for one (session, blueprint):
drops every agent whose lowercased name is in the disabled set. -/
def get_enabled_agents (disabled : List String)
    (all_agents : List (String × AgentRef)) : List (String × AgentRef) :=
  all_agents.filter fun p => !(disabled.contains (pyLower p.1))

/-! ### Concrete instances used by witnesses and counterexamples -/

/-- Two-provider gateway, all healthy, as in the spec's end-to-end scenario. -/
def gwC1 : LLMGateway :=
  { providers := ["primary", "backup"]
    fallback_chain := ["primary", "backup"]
    provider_status := [("primary", { name := "primary" }), ("backup", { name := "backup" })] }

/-- The backup provider's successful response. -/
def respC1 : LLMResponse := { content := "ok" }

/-- Primary fails retriably, backup succeeds. -/
def behaveC1 : String → ChatBehavior := fun n =>
  if n = "primary" then
    { outcome := .error (.providerError "connection refused" "primary" true) }
  else
    { outcome := .ok respC1 }

/-- Two-provider gateway for the streaming scenario. -/
def gwC2 : LLMGateway :=
  { providers := ["primary", "backup"]
    fallback_chain := ["primary", "backup"]
    provider_status := [("primary", { name := "primary" }), ("backup", { name := "backup" })] }

/-- Primary yields one chunk and then fails retriably mid-stream; backup
streams normally. -/
def behaveC2 : String → StreamBehavior := fun n =>
  if n = "primary" then
    { chunks := ["A"], outcome := some (.providerError "connection reset" "primary" true) }
  else
    { chunks := ["B"], outcome := none }

/-- A model stub whose every response requests another tool call. -/
def respondC3 : Nat → OllamaResponse := fun _ =>
  { content := "still working", tool_calls := [{ tool_name := "code_execute" }] }

/-- A tool stub. -/
def execC3 : ToolCall → String := fun _ => "tool ran"

/-- A registry holding exactly one live (not yet finished) handle. -/
def tmC4 : TaskManager := ⟨[("session-1", { done := false })]⟩

/-- Single-provider gateway with a fresh (healthy, zero-failure) status. -/
def gwC5 : LLMGateway :=
  { providers := ["p"]
    fallback_chain := ["p"]
    provider_status := [("p", { name := "p" })] }

/-- A health probe that reports the provider down. -/
def probeDownC5 : String → Except String Bool := fun _ => .ok false

/-- A health probe that reports the provider up. -/
def probeUpC5 : String → Except String Bool := fun _ => .ok true

/-- Three-provider gateway, all healthy. -/
def gwC6 : LLMGateway :=
  { providers := ["a", "b", "c"]
    fallback_chain := ["a", "b", "c"]
    provider_status :=
      [("a", { name := "a" }), ("b", { name := "b" }), ("c", { name := "c" })] }

/-- Provider a fails retriably, b fails non-retriably, c would succeed. -/
def behaveC6fatal : String → ChatBehavior := fun n =>
  if n = "a" then { outcome := .error (.providerError "rate limited" "a" true) }
  else if n = "b" then { outcome := .error (.providerError "auth failed" "b" false) }
  else { outcome := .ok { content := "never reached" } }

/-- Every provider fails retriably, each with its own message. -/
def behaveC6all : String → ChatBehavior := fun n =>
  { outcome := .error (.providerError ("boom " ++ n) n true) }

/-- The initialization-time supervisor agent. -/
def supC7 : AgentRef := { name := "Supervisor" }

/-- An enabled set that does not contain the supervisor. -/
def enabledC7 : List (String × AgentRef) := [("pythonexpert", { name := "PythonExpert" })]

/-- A supervisor agent for the direct-answer scenario. -/
def supC8 : AgentRef := { name := "Supervisor" }

/-- An enabled set containing the supervisor and one specialist. -/
def enabledC8 : List (String × AgentRef) :=
  [("supervisor", supC8), ("pythonexpert", { name := "PythonExpert" })]

/-- Single-provider gateway for the streaming-deadline scenario. -/
def gwC9 : LLMGateway :=
  { providers := ["p"]
    fallback_chain := ["p"]
    provider_status := [("p", { name := "p" })] }

/-- A streaming backend call that takes a billion seconds and then streams
one chunk successfully. -/
def behaveC9 : String → StreamBehavior := fun _ =>
  { duration := 1000000000, chunks := ["x"], outcome := none }

/-- The same streaming behaviour with an instant backend. -/
def behaveC9fast : String → StreamBehavior := fun _ =>
  { duration := 0, chunks := ["x"], outcome := none }

/-- A non-streaming backend call that exceeds the default 120 s deadline. -/
def behaveC9chat : String → ChatBehavior := fun _ =>
  { duration := 1000000000, outcome := .ok { content := "too late" } }

/-- Single-provider gateway with a fresh status. -/
def gwC10 : LLMGateway :=
  { providers := ["p"]
    fallback_chain := ["p"]
    provider_status := [("p", { name := "p" })] }

/-- A provider that always fails with a non-retriable auth error. -/
def behaveC10 : String → ChatBehavior := fun _ =>
  { outcome := .error (.providerError "invalid api key" "p" false) }

/-! ### Map lemmas -/

theorem lookupKey_update_self {α : Type} (m : List (String × α)) (k : String)
    (f : α → α) : lookupKey (updateKey m k f) k = (lookupKey m k).map f := by
  induction m with
  | nil => rfl
  | cons p rest ih =>
    rcases p with ⟨a, b⟩
    by_cases h : a = k
    · simp [updateKey, lookupKey, h]
    · simpa [updateKey, lookupKey, h] using ih

theorem lookupKey_update_ne {α : Type} (m : List (String × α)) (k k' : String)
    (f : α → α) (h : k' ≠ k) :
    lookupKey (updateKey m k f) k' = lookupKey m k' := by
  induction m with
  | nil => rfl
  | cons p rest ih =>
    rcases p with ⟨a, b⟩
    by_cases hp : a = k
    · have hp' : a ≠ k' := by rw [hp]; exact fun hh => h hh.symm
      have hkk : k ≠ k' := fun hh => h hh.symm
      simp [updateKey, lookupKey, hp, hp', hkk]
    · by_cases hq : a = k'
      · subst hq
        simp [updateKey, lookupKey, hp]
      · simpa [updateKey, lookupKey, hp, hq] using ih

theorem lookupKey_remove_self {α : Type} (m : List (String × α)) (k : String) :
    lookupKey (removeKey m k) k = none := by
  induction m with
  | nil => rfl
  | cons p rest ih =>
    rcases p with ⟨a, b⟩
    by_cases h : a = k
    · simpa [removeKey, lookupKey, h] using ih
    · simpa [removeKey, lookupKey, h] using ih

theorem lookupKey_mem {α : Type} {m : List (String × α)} {k : String} {v : α}
    (h : lookupKey m k = some v) : (k, v) ∈ m := by
  induction m with
  | nil => simp [lookupKey] at h
  | cons p rest ih =>
    rcases p with ⟨a, b⟩
    by_cases hp : a = k
    · simp [lookupKey, hp] at h
      subst hp
      subst h
      exact List.mem_cons_self _ _
    · simp [lookupKey, hp] at h
      exact List.mem_cons_of_mem _ (ih h)

theorem lookupKey_isSome_ne_nil {α : Type} {m : List (String × α)} {k : String}
    {v : α} (h : lookupKey m k = some v) : m ≠ [] := by
  intro hm
  rw [hm] at h
  simp [lookupKey] at h

theorem mem_of_head?_eq_some {α : Type} {l : List α} {a : α}
    (h : l.head? = some a) : a ∈ l := by
  cases l <;> simp_all

/-! ### Status recording lemmas -/

theorem lookup_record_failure_self (cfg : GatewayConfig)
    (st : List (String × ProviderStatus)) (n : String) (err : String) :
    lookupKey (record_failure cfg st n err) n =
      (lookupKey st n).map (apply_failure cfg err) :=
  lookupKey_update_self st n (apply_failure cfg err)

theorem lookup_record_failure_ne (cfg : GatewayConfig)
    (st : List (String × ProviderStatus)) (n q : String) (err : String)
    (h : q ≠ n) :
    lookupKey (record_failure cfg st n err) q = lookupKey st q :=
  lookupKey_update_ne st n q (apply_failure cfg err) h

theorem lookup_record_success_self (st : List (String × ProviderStatus))
    (n : String) :
    lookupKey (record_success st n) n =
      (lookupKey st n).map
        (fun s => { s with consecutive_failures := 0, healthy := true }) :=
  lookupKey_update_self st n _

theorem lookup_record_success_ne (st : List (String × ProviderStatus))
    (n q : String) (h : q ≠ n) :
    lookupKey (record_success st n) q = lookupKey st q :=
  lookupKey_update_ne st n q _ h

/-! ### One-step unfolding lemmas for the `chat` provider loop -/

theorem chat_attempts_skip (cfg : GatewayConfig) (registered : List String)
    (behave : String → ChatBehavior) (n : String) (rest : List String)
    (st : List (String × ProviderStatus)) (le : Option PyExn)
    (h : n ∉ registered) :
    chat_attempts cfg registered behave (n :: rest) st le =
      chat_attempts cfg registered behave rest st le := by
  simp [chat_attempts, h]

theorem chat_attempts_success (cfg : GatewayConfig) (registered : List String)
    (behave : String → ChatBehavior) (n : String) (rest : List String)
    (st : List (String × ProviderStatus)) (le : Option PyExn) (resp : LLMResponse)
    (hreg : n ∈ registered)
    (hd : ¬ cfg.request_timeout_seconds < (behave n).duration)
    (ho : (behave n).outcome = .ok resp) :
    chat_attempts cfg registered behave (n :: rest) st le =
      ⟨record_success st n, [n], .ok resp⟩ := by
  simp [chat_attempts, hreg, hd, ho]

theorem chat_attempts_fatal (cfg : GatewayConfig) (registered : List String)
    (behave : String → ChatBehavior) (n : String) (rest : List String)
    (st : List (String × ProviderStatus)) (le : Option PyExn)
    (m p : String) (hreg : n ∈ registered)
    (hd : ¬ cfg.request_timeout_seconds < (behave n).duration)
    (ho : (behave n).outcome = .error (.providerError m p false)) :
    chat_attempts cfg registered behave (n :: rest) st le =
      ⟨record_failure cfg st n m, [n], .raised (.providerError m p false)⟩ := by
  simp [chat_attempts, hreg, hd, ho, PyExn.msg]

theorem chat_attempts_continue (cfg : GatewayConfig) (registered : List String)
    (behave : String → ChatBehavior) (n : String) (rest : List String)
    (st : List (String × ProviderStatus)) (le : Option PyExn)
    (hreg : n ∈ registered) (hc : attempt_continues cfg (behave n)) :
    chat_attempts cfg registered behave (n :: rest) st le =
      (let st' := record_failure cfg st n (attempt_fail_msg cfg (behave n))
       let r := chat_attempts cfg registered behave rest st'
         (some (attempt_error cfg n (behave n)))
       ⟨r.status, n :: r.attempted, r.outcome⟩) := by
  by_cases hd : cfg.request_timeout_seconds < (behave n).duration
  · simp [chat_attempts, hreg, hd, attempt_fail_msg, attempt_error]
  · rcases hc with h | ⟨m, p, h⟩ | ⟨m, h⟩
    · exact absurd h hd
    · simp [chat_attempts, hreg, hd, h, attempt_fail_msg, attempt_error, PyExn.msg]
    · simp [chat_attempts, hreg, hd, h, attempt_fail_msg, attempt_error, PyExn.msg]

/-! ### Try-order computation lemmas -/

theorem get_healthy_eq_chain (gw : LLMGateway)
    (hstat : ∀ p ∈ gw.fallback_chain,
      ((lookupKey gw.provider_status p).getD { name := p }).healthy = true)
    (hne : gw.fallback_chain ≠ []) :
    get_healthy_providers gw = gw.fallback_chain := by
  rw [get_healthy_providers, if_neg hne]
  exact List.filter_eq_self.mpr fun a ha => by simpa using hstat a ha

theorem providers_to_try_healthy_chain (gw : LLMGateway)
    (hfb : gw.config.fallback_enabled = true)
    (hstat : ∀ p ∈ gw.fallback_chain,
      ((lookupKey gw.provider_status p).getD { name := p }).healthy = true)
    (hne : gw.fallback_chain ≠ []) :
    providers_to_try gw none = gw.fallback_chain := by
  rw [providers_to_try]
  simp only [hfb, if_true]
  rw [get_healthy_eq_chain gw hstat hne, if_neg hne]

/-! ### The fallback walk: failing prefix followed by a success -/

theorem chat_attempts_pre_success (cfg : GatewayConfig) (registered : List String)
    (behave : String → ChatBehavior) (n : String) (post : List String)
    (resp : LLMResponse) (hnreg : n ∈ registered)
    (hnd : ¬ cfg.request_timeout_seconds < (behave n).duration)
    (hno : (behave n).outcome = .ok resp) :
    ∀ (pre : List String) (st : List (String × ProviderStatus)) (le : Option PyExn),
      (pre ++ n :: post).Nodup →
      (∀ p ∈ pre, p ∈ registered) →
      (∀ p ∈ pre, attempt_continues cfg (behave p)) →
      (chat_attempts cfg registered behave (pre ++ n :: post) st le).outcome = .ok resp ∧
      (chat_attempts cfg registered behave (pre ++ n :: post) st le).attempted = pre ++ [n] ∧
      (∀ p ∈ pre,
        lookupKey (chat_attempts cfg registered behave (pre ++ n :: post) st le).status p =
          (lookupKey st p).map (apply_failure cfg (attempt_fail_msg cfg (behave p)))) ∧
      lookupKey (chat_attempts cfg registered behave (pre ++ n :: post) st le).status n =
        (lookupKey st n).map
          (fun s => { s with consecutive_failures := 0, healthy := true }) ∧
      (∀ q, q ∉ pre → q ≠ n →
        lookupKey (chat_attempts cfg registered behave (pre ++ n :: post) st le).status q =
          lookupKey st q) := by
  intro pre
  induction pre with
  | nil =>
    intro st le _ _ _
    rw [List.nil_append,
      chat_attempts_success cfg registered behave n post st le resp hnreg hnd hno]
    refine ⟨rfl, rfl, by simp, ?_, ?_⟩
    · exact lookup_record_success_self st n
    · intro q _ hq
      exact lookup_record_success_ne st n q hq
  | cons p pre ih =>
    intro st le hnd' hr hc
    have hpreg : p ∈ registered := hr p (List.mem_cons_self _ _)
    have hpc : attempt_continues cfg (behave p) := hc p (List.mem_cons_self _ _)
    have hnotin : p ∉ pre ++ n :: post := (List.nodup_cons.mp hnd').1
    have hnd'' : (pre ++ n :: post).Nodup := (List.nodup_cons.mp hnd').2
    have hpn : p ≠ n := fun hh => hnotin (by
      rw [hh]; exact List.mem_append_right _ (List.mem_cons_self _ _))
    have hppre : p ∉ pre := fun hh => hnotin (List.mem_append_left _ hh)
    rw [List.cons_append]
    simp only [chat_attempts_continue cfg registered behave p (pre ++ n :: post)
      st le hpreg hpc]
    have hmain := ih (record_failure cfg st p (attempt_fail_msg cfg (behave p)))
      (some (attempt_error cfg p (behave p))) hnd''
      (fun q hq => hr q (List.mem_cons_of_mem _ hq))
      (fun q hq => hc q (List.mem_cons_of_mem _ hq))
    obtain ⟨h1, h2, h3, h4, h5⟩ := hmain
    refine ⟨h1, by simp [h2], ?_, ?_, ?_⟩
    · intro q hq
      rcases List.mem_cons.mp hq with rfl | hq'
      · rw [h5 q hppre hpn]
        exact lookup_record_failure_self cfg st q (attempt_fail_msg cfg (behave q))
      · have hqp : q ≠ p := fun hh => by rw [hh] at hq'; exact hppre hq'
        rw [h3 q hq',
          lookup_record_failure_ne cfg st p q (attempt_fail_msg cfg (behave p)) hqp]
    · rw [h4, lookup_record_failure_ne cfg st p n (attempt_fail_msg cfg (behave p))
        (fun hh => hpn hh.symm)]
    · intro q hq1 hq2
      have hqp : q ≠ p := fun hh => hq1 (by rw [hh]; exact List.mem_cons_self _ _)
      have hqpre : q ∉ pre := fun hh => hq1 (List.mem_cons_of_mem _ hh)
      rw [h5 q hqpre hq2,
        lookup_record_failure_ne cfg st p q (attempt_fail_msg cfg (behave p)) hqp]

/-! ### The fallback walk: failing prefix followed by a fatal error -/

theorem chat_attempts_pre_fatal (cfg : GatewayConfig) (registered : List String)
    (behave : String → ChatBehavior) (bad : String) (post : List String)
    (m p : String) (hbreg : bad ∈ registered)
    (hbd : ¬ cfg.request_timeout_seconds < (behave bad).duration)
    (hbo : (behave bad).outcome = .error (.providerError m p false)) :
    ∀ (pre : List String) (st : List (String × ProviderStatus)) (le : Option PyExn),
      (∀ q ∈ pre, q ∈ registered) →
      (∀ q ∈ pre, attempt_continues cfg (behave q)) →
      (chat_attempts cfg registered behave (pre ++ bad :: post) st le).outcome =
        .raised (.providerError m p false) ∧
      (chat_attempts cfg registered behave (pre ++ bad :: post) st le).attempted =
        pre ++ [bad] := by
  intro pre
  induction pre with
  | nil =>
    intro st le _ _
    rw [List.nil_append,
      chat_attempts_fatal cfg registered behave bad post st le m p hbreg hbd hbo]
    exact ⟨rfl, rfl⟩
  | cons q pre ih =>
    intro st le hr hc
    rw [List.cons_append]
    simp only [chat_attempts_continue cfg registered behave q (pre ++ bad :: post)
      st le (hr q (List.mem_cons_self _ _)) (hc q (List.mem_cons_self _ _))]
    have hmain := ih (record_failure cfg st q (attempt_fail_msg cfg (behave q)))
      (some (attempt_error cfg q (behave q)))
      (fun x hx => hr x (List.mem_cons_of_mem _ hx))
      (fun x hx => hc x (List.mem_cons_of_mem _ hx))
    exact ⟨hmain.1, by simp [hmain.2]⟩

/-! ### The fallback walk: every candidate fails -/

theorem chat_attempts_all_continue (cfg : GatewayConfig) (registered : List String)
    (behave : String → ChatBehavior) :
    ∀ (chain : List String) (st : List (String × ProviderStatus)) (le : Option PyExn),
      (∀ q ∈ chain, q ∈ registered) →
      (∀ q ∈ chain, attempt_continues cfg (behave q)) →
      (chat_attempts cfg registered behave chain st le).outcome =
        .raised (match chain.getLast? with
          | some q => attempt_error cfg q (behave q)
          | none => le.getD (.providerError "No providers available" "gateway" false)) := by
  intro chain
  induction chain with
  | nil => intro st le _ _; rfl
  | cons q rest ih =>
    intro st le hr hc
    rw [chat_attempts_continue cfg registered behave q rest st le
      (hr q (List.mem_cons_self _ _)) (hc q (List.mem_cons_self _ _))]
    have hmain := ih (record_failure cfg st q (attempt_fail_msg cfg (behave q)))
      (some (attempt_error cfg q (behave q)))
      (fun x hx => hr x (List.mem_cons_of_mem _ hx))
      (fun x hx => hc x (List.mem_cons_of_mem _ hx))
    cases rest with
    | nil => simpa using hmain
    | cons r rest' => simpa [List.getLast?_cons_cons] using hmain

theorem attempt_continues_of_retriable (cfg : GatewayConfig) (b : ChatBehavior)
    (h : fails_retriably cfg b) : attempt_continues cfg b := by
  rcases h with h | h
  · exact Or.inl h
  · exact Or.inr (Or.inl h)

/-! ### Claim theorems -/

/-- C1: with every provider healthy and no hint, if the first `K` providers
of the fallback chain fail retriably and the `(K+1)`-th succeeds, `chat`
returns the `(K+1)`-th provider's response, each of the first `K`
consecutive-failure counters grows by exactly 1, and the succeeding
provider's counter is reset to 0. -/
theorem chat_fallback_increments_and_returns
    (gw : LLMGateway) (behave : String → ChatBehavior)
    (pre : List String) (n : String) (post : List String) (resp : LLMResponse)
    (hchain : gw.fallback_chain = pre ++ n :: post)
    (hnd : (pre ++ n :: post).Nodup)
    (hreg : ∀ p ∈ pre ++ n :: post, p ∈ gw.providers)
    (hstat : ∀ p ∈ pre ++ n :: post,
      ∃ s, lookupKey gw.provider_status p = some s ∧ s.healthy = true)
    (hfb : gw.config.fallback_enabled = true)
    (hpre : ∀ p ∈ pre, fails_retriably gw.config (behave p))
    (hnfast : ¬ gw.config.request_timeout_seconds < (behave n).duration)
    (hno : (behave n).outcome = Except.ok resp) :
    (chat gw behave none).outcome = ChatOutcome.ok resp ∧
    (∀ p ∈ pre,
      (lookupKey (chat gw behave none).status p).map ProviderStatus.consecutive_failures =
        (lookupKey gw.provider_status p).map (fun s => s.consecutive_failures + 1)) ∧
    (lookupKey (chat gw behave none).status n).map ProviderStatus.consecutive_failures =
      some 0 := by
  have hchne : pre ++ n :: post ≠ [] := by simp
  have hstat' : ∀ p ∈ gw.fallback_chain,
      ((lookupKey gw.provider_status p).getD { name := p }).healthy = true := by
    rw [hchain]
    intro p hp
    obtain ⟨s, hs, hh⟩ := hstat p hp
    simp [hs, hh]
  have htry : providers_to_try gw none = pre ++ n :: post := by
    rw [providers_to_try_healthy_chain gw hfb hstat' (by rw [hchain]; exact hchne),
      hchain]
  have hkey : chat gw behave none =
      chat_attempts gw.config gw.providers behave (pre ++ n :: post)
        gw.provider_status none := by
    rw [chat, htry]
  have hmain := chat_attempts_pre_success gw.config gw.providers behave n post resp
    (hreg n (List.mem_append_right _ (List.mem_cons_self _ _))) hnfast hno
    pre gw.provider_status none hnd
    (fun p hp => hreg p (List.mem_append_left _ hp))
    (fun p hp => attempt_continues_of_retriable _ _ (hpre p hp))
  obtain ⟨h1, _, h3, h4, _⟩ := hmain
  refine ⟨by rw [hkey]; exact h1, ?_, ?_⟩
  · intro p hp
    rw [hkey, h3 p hp]
    obtain ⟨s, hs, _⟩ := hstat p (List.mem_append_left _ hp)
    rw [hs]
    simp [apply_failure]
  · rw [hkey, h4]
    obtain ⟨s, hs, _⟩ := hstat n (List.mem_append_right _ (List.mem_cons_self _ _))
    rw [hs]
    simp

/-- C1 witness: primary fails retriably, backup answers `"ok"`; the response
comes from backup, primary's counter went from 0 to 1, backup's is 0. -/
theorem chat_fallback_increments_and_returns_witness :
    (chat gwC1 behaveC1 none).outcome = ChatOutcome.ok respC1 ∧
    (lookupKey (chat gwC1 behaveC1 none).status "primary").map
      ProviderStatus.consecutive_failures = some 1 ∧
    (lookupKey (chat gwC1 behaveC1 none).status "backup").map
      ProviderStatus.consecutive_failures = some 0 := by
  have h := chat_fallback_increments_and_returns gwC1 behaveC1 ["primary"] "backup" []
    respC1 rfl (by decide) (by decide)
    (by
      intro p hp
      rcases List.mem_cons.mp hp with rfl | hp'
      · exact ⟨{ name := "primary" }, rfl, rfl⟩
      · rcases List.mem_cons.mp hp' with rfl | h''
        · exact ⟨{ name := "backup" }, rfl, rfl⟩
        · cases h'')
    rfl
    (by
      intro p hp
      rcases List.mem_cons.mp hp with rfl | hp'
      · exact Or.inr ⟨"connection refused", "primary", rfl⟩
      · cases hp')
    (by decide) rfl
  refine ⟨h.1, ?_, h.2.2⟩
  rw [h.2.1 "primary" (List.mem_cons_self _ _)]
  decide

/-- C6: along any try-order, a non-retriable provider error aborts `chat`
immediately (that error is raised, later candidates are never attempted);
if instead every candidate fails retriably, `chat` raises the last recorded
error, which belongs to the last candidate. -/
theorem chat_error_propagation :
    (∀ (gw : LLMGateway) (behave : String → ChatBehavior) (hint : Option String)
       (pre : List String) (bad : String) (post : List String) (m p : String),
      providers_to_try gw hint = pre ++ bad :: post →
      (pre ++ bad :: post).Nodup →
      (∀ q ∈ pre, q ∈ gw.providers) →
      (∀ q ∈ pre, fails_retriably gw.config (behave q)) →
      bad ∈ gw.providers →
      ¬ gw.config.request_timeout_seconds < (behave bad).duration →
      (behave bad).outcome = Except.error (PyExn.providerError m p false) →
      (chat gw behave hint).outcome = ChatOutcome.raised (PyExn.providerError m p false) ∧
      (chat gw behave hint).attempted = pre ++ [bad] ∧
      (∀ q ∈ post, q ∉ (chat gw behave hint).attempted)) ∧
    (∀ (gw : LLMGateway) (behave : String → ChatBehavior) (hint : Option String)
       (lastp : String),
      (∀ q ∈ providers_to_try gw hint, q ∈ gw.providers) →
      (∀ q ∈ providers_to_try gw hint, fails_retriably gw.config (behave q)) →
      (providers_to_try gw hint).getLast? = some lastp →
      (chat gw behave hint).outcome =
        ChatOutcome.raised (attempt_error gw.config lastp (behave lastp))) := by
  constructor
  · intro gw behave hint pre bad post m p htry hnd hr hc hbreg hbd hbo
    have hkey : chat gw behave hint =
        chat_attempts gw.config gw.providers behave (pre ++ bad :: post)
          gw.provider_status none := by
      rw [chat, htry]
    have hmain := chat_attempts_pre_fatal gw.config gw.providers behave bad post m p
      hbreg hbd hbo pre gw.provider_status none hr
      (fun q hq => attempt_continues_of_retriable _ _ (hc q hq))
    rw [List.nodup_append] at hnd
    obtain ⟨_, hnd2, hdisj⟩ := hnd
    have hbadpost : bad ∉ post := (List.nodup_cons.mp hnd2).1
    refine ⟨by rw [hkey]; exact hmain.1, by rw [hkey]; exact hmain.2, ?_⟩
    intro q hq hmem
    rw [hkey, hmain.2] at hmem
    rcases List.mem_append.mp hmem with hq1 | hq2
    · exact hdisj hq1 (List.mem_cons_of_mem _ hq)
    · rw [List.mem_singleton.mp hq2] at hq
      exact hbadpost hq
  · intro gw behave hint lastp hr hc hlast
    have hmain := chat_attempts_all_continue gw.config gw.providers behave
      (providers_to_try gw hint) gw.provider_status none hr
      (fun q hq => attempt_continues_of_retriable _ _ (hc q hq))
    rw [chat]
    rw [hmain, hlast]

/-- C6 witness: with chain `["a","b","c"]`, a retriable failure on `a`
followed by a non-retriable auth error on `b` raises the auth error without
attempting `c`; when all three fail retriably, the error of `c` is raised. -/
theorem chat_error_propagation_witness :
    (chat gwC6 behaveC6fatal none).outcome =
      ChatOutcome.raised (PyExn.providerError "auth failed" "b" false) ∧
    (chat gwC6 behaveC6fatal none).attempted = ["a", "b"] ∧
    "c" ∉ (chat gwC6 behaveC6fatal none).attempted ∧
    (chat gwC6 behaveC6all none).outcome =
      ChatOutcome.raised (PyExn.providerError "boom c" "c" true) := by
  have h := chat_error_propagation
  have ha := h.1 gwC6 behaveC6fatal none ["a"] "b" ["c"] "auth failed" "b"
    (by decide) (by decide)
    (by
      intro q hq
      rcases List.mem_cons.mp hq with rfl | hq'
      · decide
      · cases hq')
    (by
      intro q hq
      rcases List.mem_cons.mp hq with rfl | hq'
      · exact Or.inr ⟨"rate limited", "a", rfl⟩
      · cases hq')
    (by decide) (by decide) rfl
  have hb := h.2 gwC6 behaveC6all none "c"
    (by
      intro q hq
      have htry : providers_to_try gwC6 none = ["a", "b", "c"] := by decide
      rw [htry] at hq
      rcases (by simpa using hq : q = "a" ∨ q = "b" ∨ q = "c") with rfl | rfl | rfl <;>
        decide)
    (by
      intro q hq
      exact Or.inr ⟨"boom " ++ q, q, rfl⟩)
    (by decide)
  refine ⟨ha.1, ha.2.1, ha.2.2 "c" (List.mem_cons_self _ _), ?_⟩
  rw [hb]
  rfl

theorem stream_attempts_ext (cfg : GatewayConfig) (registered : List String)
    (behave behave' : String → StreamBehavior)
    (h : ∀ q, (behave q).chunks = (behave' q).chunks ∧
      (behave q).outcome = (behave' q).outcome) :
    ∀ (l : List String) (st : List (String × ProviderStatus)) (le : Option PyExn),
      stream_attempts cfg registered behave l st le =
        stream_attempts cfg registered behave' l st le := by
  intro l
  induction l with
  | nil => intro st le; rfl
  | cons n rest ih =>
    intro st le
    by_cases hn : n ∈ registered
    · obtain ⟨hch, hout⟩ := h n
      cases ho : (behave n).outcome with
      | none =>
        have ho' : (behave' n).outcome = none := by rw [← hout, ho]
        simp [stream_attempts, hn, ho, ho', hch]
      | some e =>
        have ho' : (behave' n).outcome = some e := by rw [← hout, ho]
        cases e with
        | providerError m p r =>
          cases r
          · simp [stream_attempts, hn, ho, ho', hch]
          · simp [stream_attempts, hn, ho, ho', hch, ih]
        | unexpected m =>
          simp [stream_attempts, hn, ho, ho', hch, ih]
    · simp [stream_attempts, hn, ih]

/-- C9 (amended): a non-streaming `chat` attempt whose backend call outlives
the configured request timeout is cut off by the deadline: the expiry is
recorded as a retriable failure against that provider (incrementing its
counter via `record_failure`) and the loop continues with the remaining
candidates.  `chat_stream`, by contrast, applies no deadline: its outcome is
entirely independent of how long the backend calls take. -/
theorem gateway_deadline_semantics :
    (∀ (cfg : GatewayConfig) (registered : List String)
       (behave : String → ChatBehavior) (n : String) (rest : List String)
       (st : List (String × ProviderStatus)) (le : Option PyExn),
      n ∈ registered →
      cfg.request_timeout_seconds < (behave n).duration →
      chat_attempts cfg registered behave (n :: rest) st le =
        (let st' := record_failure cfg st n (timeout_message cfg)
         let r := chat_attempts cfg registered behave rest st'
           (some (.providerError (timeout_message cfg) n true))
         ⟨r.status, n :: r.attempted, r.outcome⟩)) ∧
    (∀ (gw : LLMGateway) (behave behave' : String → StreamBehavior)
       (hint : Option String),
      (∀ q, (behave q).chunks = (behave' q).chunks ∧
        (behave q).outcome = (behave' q).outcome) →
      chat_stream gw behave hint = chat_stream gw behave' hint) := by
  constructor
  · intro cfg registered behave n rest st le hreg hd
    simp [chat_attempts, hreg, hd]
  · intro gw behave behave' hint h
    rw [chat_stream, chat_stream]
    exact stream_attempts_ext gw.config gw.providers behave behave' h
      (providers_to_try gw hint) gw.provider_status none

/-- C9 counterexample: a streaming backend call that takes `10^9` seconds —
far beyond the configured 120 s deadline — still streams its chunk and
completes successfully: `chat_stream` runs under no deadline at all. -/
theorem chat_stream_no_deadline_counterexample :
    (chat_stream gwC9 behaveC9 none).emitted = ["x"] ∧
    (chat_stream gwC9 behaveC9 none).result = StreamResult.done ∧
    gwC9.config.request_timeout_seconds < (behaveC9 "p").duration := by
  refine ⟨?_, ?_, ?_⟩ <;> decide

/-- C9 witness: the over-deadline non-streaming call on provider `"p"` is
turned into a recorded retriable timeout with the loop continuing, and the
slow and instant streaming behaviours produce identical runs. -/
theorem gateway_deadline_semantics_witness :
    chat_attempts gwC9.config ["p"] behaveC9chat ["p"] gwC9.provider_status none =
      (let st' := record_failure gwC9.config gwC9.provider_status "p"
        (timeout_message gwC9.config)
       let r := chat_attempts gwC9.config ["p"] behaveC9chat [] st'
         (some (.providerError (timeout_message gwC9.config) "p" true))
       ⟨r.status, "p" :: r.attempted, r.outcome⟩) ∧
    chat_stream gwC9 behaveC9 none = chat_stream gwC9 behaveC9fast none := by
  have h := gateway_deadline_semantics
  exact ⟨h.1 gwC9.config ["p"] behaveC9chat "p" [] gwC9.provider_status none
      (by decide) (by decide),
    h.2 gwC9 behaveC9 behaveC9fast none (fun q => ⟨rfl, rfl⟩)⟩

/-- C10: every failed `chat` attempt — deadline expiry, retriable or
non-retriable `ProviderError`, or an unexpected exception — increments that
provider's consecutive-failure counter; in particular three consecutive
non-retriable failures alone drive a fresh provider past the default
threshold of 3 and mark it unhealthy. -/
theorem chat_failure_always_increments :
    (∀ (gw : LLMGateway) (behave : String → ChatBehavior) (n : String)
       (s : ProviderStatus),
      n ∈ gw.providers →
      lookupKey gw.provider_status n = some s →
      attempt_fails gw.config (behave n) →
      lookupKey (chat gw behave (some n)).status n =
        some (apply_failure gw.config (attempt_fail_msg gw.config (behave n)) s)) ∧
    (∀ (gw : LLMGateway) (behave : String → ChatBehavior) (n : String)
       (s : ProviderStatus),
      n ∈ gw.providers →
      lookupKey gw.provider_status n = some s →
      s.consecutive_failures = 0 →
      gw.config.max_failures_before_unhealthy = 3 →
      ¬ gw.config.request_timeout_seconds < (behave n).duration →
      (∃ m p, (behave n).outcome = Except.error (PyExn.providerError m p false)) →
      (lookupKey (gateway_after_chat (gateway_after_chat
          (gateway_after_chat gw behave (some n)) behave (some n))
          behave (some n)).provider_status n).map ProviderStatus.healthy =
        some false ∧
      (lookupKey (gateway_after_chat (gateway_after_chat
          (gateway_after_chat gw behave (some n)) behave (some n))
          behave (some n)).provider_status n).map
          ProviderStatus.consecutive_failures = some 3) := by
  have hone : ∀ (gw : LLMGateway) (behave : String → ChatBehavior) (n : String)
      (s : ProviderStatus),
      n ∈ gw.providers →
      lookupKey gw.provider_status n = some s →
      attempt_fails gw.config (behave n) →
      lookupKey (chat gw behave (some n)).status n =
        some (apply_failure gw.config (attempt_fail_msg gw.config (behave n)) s) := by
    intro gw behave n s hreg hlook hfail
    have hkey : chat gw behave (some n) =
        chat_attempts gw.config gw.providers behave [n] gw.provider_status none := by
      rw [chat]; rfl
    rw [hkey]
    rcases hfail with hd | ⟨e, he⟩
    · rw [chat_attempts_continue gw.config gw.providers behave n [] gw.provider_status
        none hreg (Or.inl hd)]
      simp only [chat_attempts]
      rw [lookup_record_failure_self, hlook]
      rfl
    · cases e with
      | providerError m p r =>
        cases r
        · by_cases hd : gw.config.request_timeout_seconds < (behave n).duration
          · rw [chat_attempts_continue gw.config gw.providers behave n []
              gw.provider_status none hreg (Or.inl hd)]
            simp only [chat_attempts]
            rw [lookup_record_failure_self, hlook]
            rfl
          · rw [chat_attempts_fatal gw.config gw.providers behave n []
              gw.provider_status none m p hreg hd he]
            rw [lookup_record_failure_self, hlook]
            simp [attempt_fail_msg, hd, he, PyExn.msg]
        · rw [chat_attempts_continue gw.config gw.providers behave n []
            gw.provider_status none hreg (Or.inr (Or.inl ⟨m, p, he⟩))]
          simp only [chat_attempts]
          rw [lookup_record_failure_self, hlook]
          rfl
      | unexpected m =>
        rw [chat_attempts_continue gw.config gw.providers behave n []
          gw.provider_status none hreg (Or.inr (Or.inr ⟨m, he⟩))]
        simp only [chat_attempts]
        rw [lookup_record_failure_self, hlook]
        rfl
  refine ⟨hone, ?_⟩
  intro gw behave n s hreg hlook hcf hmax hd hfatal
  obtain ⟨m, p, he⟩ := hfatal
  have hfails : attempt_fails gw.config (behave n) :=
    Or.inr ⟨.providerError m p false, he⟩
  have h1 := hone gw behave n s hreg hlook hfails
  set s1 := apply_failure gw.config (attempt_fail_msg gw.config (behave n)) s with hs1
  have h2 := hone (gateway_after_chat gw behave (some n)) behave n s1 hreg h1 hfails
  set s2 := apply_failure gw.config (attempt_fail_msg gw.config (behave n)) s1 with hs2
  have h3 := hone (gateway_after_chat (gateway_after_chat gw behave (some n))
    behave (some n)) behave n s2 hreg h2 hfails
  have hgs : ∀ (g : LLMGateway) (b : String → ChatBehavior) (hi : Option String),
      (gateway_after_chat g b hi).provider_status = (chat g b hi).status :=
    fun _ _ _ => rfl
  rw [hgs, h3]
  have hcf1 : s1.consecutive_failures = 1 := by
    rw [hs1]; simp [apply_failure, hcf]
  have hcf2 : s2.consecutive_failures = 2 := by
    rw [hs2]; simp [apply_failure, hcf1]
  constructor
  · simp [apply_failure, hcf2, hmax, gateway_after_chat]
  · simp [apply_failure, hcf2, gateway_after_chat]

/-- C10 witness: a provider that always fails with a non-retriable auth
error has its counter incremented on the first call, and after three such
calls it is unhealthy with counter 3. -/
theorem chat_failure_always_increments_witness :
    lookupKey (chat gwC10 behaveC10 (some "p")).status "p" =
      some (apply_failure gwC10.config
        (attempt_fail_msg gwC10.config (behaveC10 "p")) { name := "p" }) ∧
    (lookupKey (gateway_after_chat (gateway_after_chat
        (gateway_after_chat gwC10 behaveC10 (some "p")) behaveC10 (some "p"))
        behaveC10 (some "p")).provider_status "p").map ProviderStatus.healthy =
      some false ∧
    (lookupKey (gateway_after_chat (gateway_after_chat
        (gateway_after_chat gwC10 behaveC10 (some "p")) behaveC10 (some "p"))
        behaveC10 (some "p")).provider_status "p").map
        ProviderStatus.consecutive_failures = some 3 := by
  have h := chat_failure_always_increments
  have h1 := h.1 gwC10 behaveC10 "p" { name := "p" } (by decide) rfl
    (Or.inr ⟨.providerError "invalid api key" "p" false, rfl⟩)
  have h2 := h.2 gwC10 behaveC10 "p" { name := "p" } (by decide) rfl rfl rfl
    (by decide) ⟨"invalid api key", "p", rfl⟩
  exact ⟨h1, h2.1, h2.2⟩

/-- C2: evaluation at the failing input.  Primary yields chunk `"A"` and then
fails with a retriable error mid-stream; instead of surfacing the failure,
`chat_stream` silently continues with backup, so the caller receives
`["A", "B"]` and a normal completion — a provider switch after partial
output, contradicting the function's own docstring ("Once streaming starts,
failures will raise exceptions"). -/
theorem chat_stream_midstream_fallback :
    (chat_stream gwC2 behaveC2 none).emitted = ["A", "B"] ∧
    (chat_stream gwC2 behaveC2 none).result = StreamResult.done ∧
    (behaveC2 "primary").chunks = ["A"] ∧
    (behaveC2 "primary").outcome =
      some (PyExn.providerError "connection reset" "primary" true) := by
  refine ⟨?_, ?_, ?_, ?_⟩ <;> decide

/-- C5 (amended): any success resets the counter to 0 — both a successful
`chat` (via `_record_success`) and a successful health probe; in the request
path the healthy flag flips to false exactly when the incremented counter
reaches the threshold; exclusion from the healthy-providers computation is
governed by the `healthy` flag alone — which a *failed health probe* also
sets to false directly, without the counter reaching the threshold. -/
theorem provider_status_lifecycle :
    (∀ (st : List (String × ProviderStatus)) (n : String),
      lookupKey (record_success st n) n =
        (lookupKey st n).map
          (fun s => { s with consecutive_failures := 0, healthy := true })) ∧
    (∀ (gw : LLMGateway) (probe : String → Except String Bool) (n : String)
       (s : ProviderStatus),
      n ∈ gw.providers →
      lookupKey gw.provider_status n = some s →
      probe n = .ok true →
      lookupKey (health_check gw probe (some n)).1 n =
        some { s with consecutive_failures := 0, healthy := true }) ∧
    (∀ (cfg : GatewayConfig) (st : List (String × ProviderStatus))
       (n err : String) (s : ProviderStatus),
      lookupKey st n = some s →
      lookupKey (record_failure cfg st n err) n = some (apply_failure cfg err s) ∧
      ((apply_failure cfg err s).healthy = false ↔
        (cfg.max_failures_before_unhealthy ≤ s.consecutive_failures + 1 ∨
          s.healthy = false))) ∧
    (∀ (gw : LLMGateway) (n : String),
      gw.fallback_chain ≠ [] →
      (n ∈ get_healthy_providers gw ↔
        n ∈ gw.fallback_chain ∧
        ((lookupKey gw.provider_status n).getD { name := n }).healthy = true)) := by
  refine ⟨?_, ?_, ?_, ?_⟩
  · intro st n
    exact lookup_record_success_self st n
  · intro gw probe n s hreg hlook hprobe
    rw [health_check]
    simp only [health_check_go, hreg, if_pos, hprobe]
    rw [lookupKey_update_self, hlook]
    rfl
  · intro cfg st n err s hlook
    refine ⟨by rw [lookup_record_failure_self, hlook]; rfl, ?_⟩
    rw [apply_failure]
    by_cases h : cfg.max_failures_before_unhealthy ≤ s.consecutive_failures + 1
    · simp [h]
    · simp [h]
  · intro gw n hne
    rw [get_healthy_providers, if_neg hne]
    simp [List.mem_filter]

/-- C5 counterexample: a failed health probe on a fresh provider leaves the
counter at 0 — strictly below the threshold of 3 — yet sets `healthy` to
false and excludes the provider from the healthy-providers computation. -/
theorem health_probe_unhealthy_below_threshold :
    lookupKey (health_check gwC5 probeDownC5 none).1 "p" =
      some { name := "p", healthy := false, consecutive_failures := 0 } ∧
    (0 : Nat) < gwC5.config.max_failures_before_unhealthy ∧
    get_healthy_providers
      { gwC5 with provider_status := (health_check gwC5 probeDownC5 none).1 } = [] := by
  refine ⟨?_, ?_, ?_⟩ <;> decide

/-- C5 witness: the lifecycle theorem instantiated on the one-provider
gateway: success and probe-success reset the counter, `record_failure`
applies `apply_failure`, and healthy-chain membership is the healthy flag. -/
theorem provider_status_lifecycle_witness :
    lookupKey (record_success gwC5.provider_status "p") "p" =
      (lookupKey gwC5.provider_status "p").map
        (fun s => { s with consecutive_failures := 0, healthy := true }) ∧
    lookupKey (health_check gwC5 probeUpC5 (some "p")).1 "p" =
      some { name := "p", consecutive_failures := 0, healthy := true } ∧
    lookupKey (record_failure gwC5.config gwC5.provider_status "p" "boom") "p" =
      some (apply_failure gwC5.config "boom" { name := "p" }) ∧
    ("p" ∈ get_healthy_providers gwC5 ↔
      "p" ∈ gwC5.fallback_chain ∧
      ((lookupKey gwC5.provider_status "p").getD { name := "p" }).healthy = true) := by
  have h := provider_status_lifecycle
  exact ⟨h.1 gwC5.provider_status "p",
    h.2.1 gwC5 probeUpC5 "p" { name := "p" } (by decide) rfl rfl,
    (h.2.2.1 gwC5.config gwC5.provider_status "p" "boom" { name := "p" } rfl).1,
    h.2.2.2 gwC5 "p" (by decide)⟩

theorem sync_loop_step (respond : Nat → OllamaResponse)
    (execute_tool : ToolCall → String) (fuel calls : Nat)
    (messages : List ChatMsg) (response : OllamaResponse)
    (h : response.tool_calls ≠ []) :
    sync_loop respond execute_tool (fuel + 1) calls messages response =
      sync_loop respond execute_tool fuel (calls + 1)
        (messages ++ [⟨"assistant", response.content⟩] ++
          response.tool_calls.map fun tc => ⟨"tool", execute_tool tc⟩)
        (respond calls) := by
  simp [sync_loop, h]

theorem sync_loop_all_tool_calls (respond : Nat → OllamaResponse)
    (execute_tool : ToolCall → String)
    (h : ∀ k, (respond k).tool_calls ≠ []) :
    ∀ (fuel prev : Nat) (messages : List ChatMsg),
      (sync_loop respond execute_tool fuel (prev + 1) messages (respond prev)).calls =
        prev + 1 + fuel ∧
      (sync_loop respond execute_tool fuel (prev + 1) messages (respond prev)).content =
        (respond (prev + fuel)).content := by
  intro fuel
  induction fuel with
  | zero => intro prev messages; exact ⟨rfl, rfl⟩
  | succ f ih =>
    intro prev messages
    rw [sync_loop_step respond execute_tool f (prev + 1) messages (respond prev)
      (h prev)]
    have hmain := ih (prev + 1)
      (messages ++ [⟨"assistant", (respond prev).content⟩] ++
        (respond prev).tool_calls.map fun tc => ⟨"tool", execute_tool tc⟩)
    refine ⟨by rw [hmain.1]; omega, ?_⟩
    rw [hmain.2]
    have harg : prev + 1 + f = prev + (f + 1) := by omega
    rw [harg]

/-- C3 (amended): against a stub whose every response carries a tool call,
`_handle_sync_response` makes exactly `MAX_TOOL_ITERATIONS + 1 = 6` backend
chat calls — the initial call plus one per loop iteration — makes no further
call once the cap is hit, and returns the content of the last response. -/
theorem sync_loop_cap_calls (respond : Nat → OllamaResponse)
    (execute_tool : ToolCall → String) (messages : List ChatMsg)
    (h : ∀ k, (respond k).tool_calls ≠ []) :
    (handle_sync_response respond execute_tool messages).calls =
      MAX_TOOL_ITERATIONS + 1 ∧
    (handle_sync_response respond execute_tool messages).content =
      (respond MAX_TOOL_ITERATIONS).content := by
  have hmain := sync_loop_all_tool_calls respond execute_tool h
    MAX_TOOL_ITERATIONS 0 messages
  constructor
  · have h1 := hmain.1
    rw [handle_sync_response]
    simpa [MAX_TOOL_ITERATIONS] using h1
  · have h2 := hmain.2
    rw [handle_sync_response]
    simpa [MAX_TOOL_ITERATIONS] using h2

/-- C3 counterexample: with the always-tool-calling stub the handler makes 6
backend chat calls in total, not `MAX_TOOL_ITERATIONS = 5` as the claim
counts them. -/
theorem sync_loop_call_count_counterexample :
    (handle_sync_response respondC3 execC3 []).calls = MAX_TOOL_ITERATIONS + 1 ∧
    ¬ (handle_sync_response respondC3 execC3 []).calls = MAX_TOOL_ITERATIONS := by
  refine ⟨?_, ?_⟩ <;> decide

/-- C3 witness: the amended cap theorem instantiated at the concrete stub. -/
theorem sync_loop_cap_calls_witness :
    (handle_sync_response respondC3 execC3 []).calls = MAX_TOOL_ITERATIONS + 1 ∧
    (handle_sync_response respondC3 execC3 []).content =
      (respondC3 MAX_TOOL_ITERATIONS).content :=
  sync_loop_cap_calls respondC3 execC3 [] (fun _ => List.cons_ne_nil _ _)

/-- C4 (amended): with a live handle registered, two `cancel_task` calls in
immediate succession both return `true` — `Task.cancel()` does not make the
task `done` within the same synchronous frame — and the handle stays
registered with two delivered cancel requests; `cancel_task` returns `false`
only once the task has actually finished in between, and only then is the
stale handle removed. -/
theorem cancel_task_immediate_succession (tm : TaskManager) (sid : String)
    (t : PyTask) (hlook : lookupKey tm.tasks sid = some t)
    (hlive : t.done = false) :
    (cancel_task tm sid).1 = true ∧
    (cancel_task (cancel_task tm sid).2 sid).1 = true ∧
    lookupKey (cancel_task (cancel_task tm sid).2 sid).2.tasks sid =
      some { t with cancel_requests := t.cancel_requests + 2 } ∧
    (cancel_task ⟨updateKey tm.tasks sid (fun u => { u with done := true })⟩ sid).1 =
      false ∧
    lookupKey (cancel_task ⟨updateKey tm.tasks sid
      (fun u => { u with done := true })⟩ sid).2.tasks sid = none := by
  have h1 : cancel_task tm sid =
      (true, ⟨updateKey tm.tasks sid
        (fun u => { u with cancel_requests := u.cancel_requests + 1 })⟩) := by
    rw [cancel_task, hlook]
    simp [hlive]
  have hlook2 : lookupKey (cancel_task tm sid).2.tasks sid =
      some { t with cancel_requests := t.cancel_requests + 1 } := by
    rw [h1]
    rw [lookupKey_update_self, hlook]
    rfl
  have h2 : cancel_task (cancel_task tm sid).2 sid =
      (true, ⟨updateKey (cancel_task tm sid).2.tasks sid
        (fun u => { u with cancel_requests := u.cancel_requests + 1 })⟩) := by
    rw [cancel_task, hlook2]
    simp [hlive]
  have hlookdone : lookupKey (updateKey tm.tasks sid
      (fun u => { u with done := true })) sid = some { t with done := true } := by
    rw [lookupKey_update_self, hlook]
    rfl
  have h4 : cancel_task ⟨updateKey tm.tasks sid
      (fun u => { u with done := true })⟩ sid =
      (false, cleanup_task ⟨updateKey tm.tasks sid
        (fun u => { u with done := true })⟩ sid) := by
    rw [cancel_task]
    show (match lookupKey (updateKey tm.tasks sid fun u => { u with done := true })
        sid with
      | none => _
      | some t => _) = _
    rw [hlookdone]
    simp
  refine ⟨by rw [h1], by rw [h2], ?_, by rw [h4], ?_⟩
  · rw [h2]
    show lookupKey (updateKey (cancel_task tm sid).2.tasks sid _) sid = _
    rw [lookupKey_update_self, hlook2]
    rfl
  · rw [h4]
    exact lookupKey_remove_self _ sid

/-- C4 counterexample: on a registry with exactly one live handle, both
immediate cancel calls return `true` (the claim expects `true` then
`false`) and a live handle is still registered afterwards (the claim
expects none to remain). -/
theorem cancel_twice_counterexample :
    (cancel_task tmC4 "session-1").1 = true ∧
    (cancel_task (cancel_task tmC4 "session-1").2 "session-1").1 = true ∧
    is_active (cancel_task (cancel_task tmC4 "session-1").2 "session-1").2
      "session-1" = true := by
  refine ⟨?_, ?_, ?_⟩ <;> decide

/-- C4 witness: the amended cancellation theorem at the concrete registry. -/
theorem cancel_task_immediate_succession_witness :
    (cancel_task tmC4 "session-1").1 = true ∧
    (cancel_task (cancel_task tmC4 "session-1").2 "session-1").1 = true ∧
    lookupKey (cancel_task (cancel_task tmC4 "session-1").2 "session-1").2.tasks
      "session-1" = some { done := false, cancel_requests := 2 } ∧
    (cancel_task ⟨updateKey tmC4.tasks "session-1"
      (fun u => { u with done := true })⟩ "session-1").1 = false ∧
    lookupKey (cancel_task ⟨updateKey tmC4.tasks "session-1"
      (fun u => { u with done := true })⟩ "session-1").2.tasks "session-1" =
      none :=
  cancel_task_immediate_succession tmC4 "session-1" { done := false } rfl rfl

theorem classifier_select_mem (agents : List (String × AgentRef))
    (reply : Except String String) (o : ClassifierOutcome)
    (h : classifier_select agents reply = some o) :
    o.selected ∈ agents.map Prod.snd := by
  cases reply with
  | ok text =>
    cases hf : agents.find? (fun p => strContain (pyLower p.2.name) (pyLower text)) with
    | some p =>
      simp [classifier_select, hf] at h
      cases h
      exact List.mem_map_of_mem _ (List.mem_of_find?_eq_some hf)
    | none =>
      cases hl : lookupKey agents "systemarchitect" with
      | some x =>
        simp [classifier_select, hf, hl] at h
        cases h
        exact List.mem_map_of_mem _ (lookupKey_mem hl)
      | none =>
        cases hh : agents.head? with
        | some p =>
          simp [classifier_select, hf, hl, hh] at h
          cases h
          exact List.mem_map_of_mem _ (mem_of_head?_eq_some hh)
        | none => simp [classifier_select, hf, hl, hh] at h
  | error e =>
    cases hl : lookupKey agents "systemarchitect" with
    | some x =>
      simp [classifier_select, hl] at h
      cases h
      exact List.mem_map_of_mem _ (lookupKey_mem hl)
    | none =>
      cases hh : agents.head? with
      | some p =>
        simp [classifier_select, hl, hh] at h
        cases h
        exact List.mem_map_of_mem _ (mem_of_head?_eq_some hh)
      | none => simp [classifier_select, hl, hh] at h

theorem explicit_agent_mem (ql : String) (enabled : List (String × AgentRef))
    (a : AgentRef) (h : explicit_agent_for ql enabled = some a) :
    a ∈ enabled.map Prod.snd := by
  unfold explicit_agent_for at h
  split_ifs at h <;> exact List.mem_map_of_mem _ (lookupKey_mem h)

theorem mem_map_snd_of_filter {pred : String × AgentRef → Bool}
    {l : List (String × AgentRef)} {a : AgentRef}
    (h : a ∈ (l.filter pred).map Prod.snd) : a ∈ l.map Prod.snd := by
  obtain ⟨p, hp, hpa⟩ := List.mem_map.mp h
  rw [← hpa]
  exact List.mem_map_of_mem _ (List.mem_of_mem_filter hp)

theorem select_streaming_membership (sup : Option AgentRef)
    (enabled : List (String × AgentRef)) (query : String)
    (reply : Except String String) (a : AgentRef)
    (h : selected_agent_of (select_streaming sup enabled query reply) = some a) :
    a ∈ enabled.map Prod.snd ∨
      (sup = some a ∧
        select_streaming sup enabled query reply = Selection.supervisorDirect a) := by
  by_cases he : enabled = []
  · simp [select_streaming, he, selected_agent_of] at h
  · cases sup with
    | none =>
      cases hcs : classifier_select (enabled.filter fun p => p.1 != "supervisor")
          reply with
      | some o =>
        left
        have hm := classifier_select_mem _ _ _ hcs
        have ha : o.selected = a := by
          simp [select_streaming, he, hcs, selected_agent_of] at h
          exact h
        rw [ha] at hm
        exact mem_map_snd_of_filter hm
      | none => simp [select_streaming, he, hcs, selected_agent_of] at h
    | some s =>
      by_cases hpat : (supervisor_patterns.any fun pat =>
          strContain pat (pyStrip (pyLower query))) = true
      · have hsel : select_streaming (some s) enabled query reply =
            Selection.supervisorDirect s := by
          simp [select_streaming, he, hpat]
        rw [hsel] at h
        simp [selected_agent_of] at h
        right
        exact ⟨by rw [h], by rw [hsel, h]⟩
      · cases hex : explicit_agent_for (pyStrip (pyLower query)) enabled with
        | some x =>
          left
          have ha : x = a := by
            simp [select_streaming, he, hpat, hex, selected_agent_of] at h
            exact h
          rw [← ha]
          exact explicit_agent_mem _ _ _ hex
        | none =>
          by_cases hcoll : enabled.filter (fun p => p.1 != "supervisor") = []
          · simp [select_streaming, he, hpat, hex, hcoll, selected_agent_of] at h
          · cases hcs : classifier_select
                (enabled.filter fun p => p.1 != "supervisor") reply with
            | some o =>
              left
              have hm := classifier_select_mem _ _ _ hcs
              have ha : o.selected = a := by
                simp [select_streaming, he, hpat, hex, hcoll, hcs,
                  selected_agent_of] at h
                exact h
              rw [ha] at hm
              exact mem_map_snd_of_filter hm
            | none =>
              cases hsa : lookupKey (enabled.filter fun p => p.1 != "supervisor")
                  "systemarchitect" with
              | some x =>
                left
                have ha : x = a := by
                  simp [select_streaming, he, hpat, hex, hcoll, hcs, hsa,
                    selected_agent_of] at h
                  exact h
                rw [← ha]
                exact mem_map_snd_of_filter
                  (List.mem_map_of_mem _ (lookupKey_mem hsa))
              | none =>
                simp [select_streaming, he, hpat, hex, hcoll, hcs, hsa,
                  selected_agent_of] at h

/-- C7 (amended): every agent the streaming router selects through the
explicit-request or classifier branches (including all classifier
fallbacks) belongs to the caller's enabled set; the one exception is the
supervisor direct-answer branch, which selects the construction-time
supervisor agent whether or not it is enabled — so whenever the enabled set
does contain the supervisor, every selected agent is enabled. -/
theorem router_enabled_membership :
    (∀ (sup : Option AgentRef) (enabled : List (String × AgentRef))
       (query : String) (reply : Except String String) (a : AgentRef),
      selected_agent_of (select_streaming sup enabled query reply) = some a →
      a ∈ enabled.map Prod.snd ∨
        (sup = some a ∧
          select_streaming sup enabled query reply = Selection.supervisorDirect a)) ∧
    (∀ (s : AgentRef) (enabled : List (String × AgentRef)) (query : String)
       (reply : Except String String) (a : AgentRef),
      lookupKey enabled "supervisor" = some s →
      selected_agent_of (select_streaming (some s) enabled query reply) = some a →
      a ∈ enabled.map Prod.snd) := by
  refine ⟨fun sup enabled query reply a h =>
    select_streaming_membership sup enabled query reply a h, ?_⟩
  intro s enabled query reply a hsup h
  rcases select_streaming_membership (some s) enabled query reply a h with hm | ⟨hs, _⟩
  · exact hm
  · injection hs with hs
    rw [← hs]
    exact List.mem_map_of_mem _ (lookupKey_mem hsup)

/-- C7 counterexample: disabling the supervisor for the session removes it
from the enabled set, yet the greeting `"hello"` is still answered by the
construction-time supervisor agent — an agent outside the enabled set. -/
theorem supervisor_direct_ignores_enablement :
    get_enabled_agents ["supervisor"]
      [("supervisor", supC7), ("pythonexpert", { name := "PythonExpert" })] =
      enabledC7 ∧
    select_streaming (some supC7) enabledC7 "hello" (Except.ok "") =
      Selection.supervisorDirect supC7 ∧
    supC7 ∉ enabledC7.map Prod.snd := by
  refine ⟨?_, ?_, ?_⟩ <;> decide

/-- C7 witness: a classifier-routed selection lands in the enabled set, and
with the supervisor enabled the direct-answer selection does too. -/
theorem router_enabled_membership_witness :
    (({ name := "PythonExpert" } : AgentRef) ∈ enabledC7.map Prod.snd ∨
      ((none : Option AgentRef) = some { name := "PythonExpert" } ∧
        select_streaming none enabledC7 "route this query"
          (Except.ok "PythonExpert") =
          Selection.supervisorDirect { name := "PythonExpert" })) ∧
    supC8 ∈ enabledC8.map Prod.snd := by
  have h := router_enabled_membership
  exact ⟨h.1 none enabledC7 "route this query" (Except.ok "PythonExpert")
      { name := "PythonExpert" } (by decide),
    h.2 supC8 enabledC8 "hello" (Except.ok "") supC8 rfl (by decide)⟩

/-- C8: for any enabled set containing the supervisor, the query `"hello"`
is answered by the supervisor's direct-answer branch: the metadata event
names the supervisor, and the outcome is independent of the classifier's
reply — no classifier call influences the invocation. -/
theorem hello_selects_supervisor (s : AgentRef)
    (enabled : List (String × AgentRef)) (reply reply' : Except String String)
    (hsup : lookupKey enabled "supervisor" = some s) :
    select_streaming (some s) enabled "hello" reply =
      Selection.supervisorDirect s ∧
    metadata_agent (select_streaming (some s) enabled "hello" reply) =
      some s.name ∧
    select_streaming (some s) enabled "hello" reply =
      select_streaming (some s) enabled "hello" reply' := by
  have hne : enabled ≠ [] := by
    intro hx
    rw [hx] at hsup
    simp [lookupKey] at hsup
  have hpat : (supervisor_patterns.any fun pat =>
      strContain pat (pyStrip (pyLower "hello"))) = true := by decide
  have hsel : ∀ r : Except String String,
      select_streaming (some s) enabled "hello" r =
        Selection.supervisorDirect s := by
    intro r
    simp [select_streaming, hne, hpat]
  exact ⟨hsel reply, by rw [hsel reply]; rfl, by rw [hsel reply, hsel reply']⟩

/-- C8 witness: the direct-answer theorem at a concrete enabled set, with a
successful and a failing classifier reply producing the same selection. -/
theorem hello_selects_supervisor_witness :
    select_streaming (some supC8) enabledC8 "hello"
      (Except.ok "KubernetesExpert") = Selection.supervisorDirect supC8 ∧
    metadata_agent (select_streaming (some supC8) enabledC8 "hello"
      (Except.ok "KubernetesExpert")) = some supC8.name ∧
    select_streaming (some supC8) enabledC8 "hello"
      (Except.ok "KubernetesExpert") =
      select_streaming (some supC8) enabledC8 "hello"
        (Except.error "classifier down") :=
  hello_selects_supervisor supC8 enabledC8 _ _ rfl

end AgenticAI
